import Mathlib

/-! Shallow embedding of the grokking-vietnam/playground infrastructure-as-code
repository: the resource declarations of the `aws` and `vm-hcloud` Pulumi
stacks (translated from `src/iac/stacks/...`), together with the stack-loading
behaviour of `src/iac/__main__.py` and the dependency-graph resolution the
specification describes for the external engine. -/

namespace Iac

/-- A resource identifier within a stack: the resource kind paired with the
logical name of the declaration. -/
abbrev RId := String × String

/-- A property value of a resource declaration: a literal, a value obtained
from the per-stack configuration store (`pulumi.Config().require`), a
reference to an output attribute of another declaration, or an indexed element of
a data-source result list (such as `sso_instance.arns[0]`). -/
inductive PropValue where
  | lit (value : String)
  | configKey (key : String)
  | ref (kind : String) (name : String) (attr : String)
  | dataIdx (source : String) (attr : String) (index : Nat)
deriving DecidableEq, Repr

/-- A desired-state resource declaration: logical name, provider resource
kind, properties, and explicit ordering hints (`depends_on`). -/
structure ResourceDeclaration where
  logical_name : String
  resource_kind : String
  properties : List (String × PropValue) := []
  explicit_dependencies : List RId := []
deriving DecidableEq, Repr

/-- The identifier of a declaration inside its stack. -/
def declId (d : ResourceDeclaration) : RId := (d.resource_kind, d.logical_name)

/-- The reference targets appearing among the property values of a declaration. -/
def refTargets (props : List (String × PropValue)) : List RId :=
  props.foldr
    (fun p acc =>
      match p.2 with
      | PropValue.ref k n _ => (k, n) :: acc
      | _ => acc)
    []

/-- All dependency-graph edges out of a declaration: reference targets plus
explicit dependency hints. -/
def depsOf (d : ResourceDeclaration) : List RId :=
  refTargets d.properties ++ d.explicit_dependencies

/-- From `src/iac/stacks/aws/iam/permission_sets.py`: the `administrator`
permission set, whose instance ARN is `sso_instance.arns[0]`. -/
def administrator_permission_set : ResourceDeclaration :=
  { logical_name := "administrator"
    resource_kind := "aws.ssoadmin.PermissionSet"
    properties :=
      [("name", PropValue.lit "administrator"),
       ("instance_arn", PropValue.dataIdx "sso_instance" "arns" 0)] }

/-- From `src/iac/stacks/aws/iam/groups.py`: the `admins` identity-store
group. -/
def sso_group_admins : ResourceDeclaration :=
  { logical_name := "admins"
    resource_kind := "aws.identitystore.Group"
    properties :=
      [("display_name", PropValue.lit "Admins"),
       ("identity_store_id", PropValue.configKey "sso_identity_store_id")] }

/-- From `src/iac/stacks/aws/iam/groups.py`: the `editors` identity-store
group. -/
def sso_group_editors : ResourceDeclaration :=
  { logical_name := "editors"
    resource_kind := "aws.identitystore.Group"
    properties :=
      [("display_name", PropValue.lit "Editors"),
       ("identity_store_id", PropValue.configKey "sso_identity_store_id")] }

/-- From `src/iac/stacks/aws/iam/users.py`: the `v2kk` identity-store user. -/
def v2kk : ResourceDeclaration :=
  { logical_name := "v2kk"
    resource_kind := "aws.identitystore.User"
    properties :=
      [("identity_store_id", PropValue.configKey "sso_identity_store_id"),
       ("display_name", PropValue.lit "Quyen Dang"),
       ("user_name", PropValue.lit "v2kk"),
       ("name.given_name", PropValue.lit "Quyen"),
       ("name.family_name", PropValue.lit "Dang"),
       ("emails.primary", PropValue.lit "true"),
       ("emails.value", PropValue.lit "23162082@student.hcmute.edu.vn")] }

/-- From `src/iac/stacks/aws/iam/assignments.py`: the account assignment tying
the `admins` group to the `administrator` permission set on the configured
account. -/
def account_assignment : ResourceDeclaration :=
  { logical_name := "account_assignment"
    resource_kind := "aws.ssoadmin.AccountAssignment"
    properties :=
      [("instance_arn", PropValue.dataIdx "sso_instance" "arns" 0),
       ("permission_set_arn",
        PropValue.ref "aws.ssoadmin.PermissionSet" "administrator" "arn"),
       ("principal_id", PropValue.ref "aws.identitystore.Group" "admins" "group_id"),
       ("principal_type", PropValue.lit "GROUP"),
       ("target_id", PropValue.configKey "account_id"),
       ("target_type", PropValue.lit "AWS_ACCOUNT")] }

/-- From `src/iac/stacks/aws/iam/group_memberships.py`: the `administrator`
group membership placing user `v2kk` into group `admins`. -/
def group_membership : ResourceDeclaration :=
  { logical_name := "administrator"
    resource_kind := "aws.identitystore.GroupMembership"
    properties :=
      [("identity_store_id", PropValue.configKey "sso_identity_store_id"),
       ("group_id", PropValue.ref "aws.identitystore.Group" "admins" "group_id"),
       ("member_id", PropValue.ref "aws.identitystore.User" "v2kk" "user_id")] }

/-- From `src/iac/stacks/aws/iam/managed_policy_attachment.py`: the
`administrator` managed-policy attachment on the `administrator` permission
set. -/
def managed_policy_attachment : ResourceDeclaration :=
  { logical_name := "administrator"
    resource_kind := "aws.ssoadmin.ManagedPolicyAttachment"
    properties :=
      [("instance_arn", PropValue.dataIdx "sso_instance" "arns" 0),
       ("managed_policy_arn",
        PropValue.lit "arn:aws:iam::aws:policy/AdministratorAccess"),
       ("permission_set_arn",
        PropValue.ref "aws.ssoadmin.PermissionSet" "administrator" "arn")] }

/-- From `src/iac/stacks/aws/kms.py`: the `hcloud_token` symmetric KMS key. -/
def hcloud_token : ResourceDeclaration :=
  { logical_name := "hcloud_token"
    resource_kind := "aws.kms.Key"
    properties :=
      [("description", PropValue.lit "Symmetric encryption KMS key for hcloud_token"),
       ("enable_key_rotation", PropValue.lit "true"),
       ("deletion_window_in_days", PropValue.lit "20"),
       ("tags.service", PropValue.lit "sops")] }

/-- From `src/iac/stacks/aws/kms.py`: the `hcloud_token_a` alias pointing at
the `key_id` output of the `hcloud_token` key. -/
def hcloud_token_alias : ResourceDeclaration :=
  { logical_name := "hcloud_token_a"
    resource_kind := "aws.kms.Alias"
    properties :=
      [("name", PropValue.lit "alias/hcloud_token"),
       ("target_key_id", PropValue.ref "aws.kms.Key" "hcloud_token" "key_id")] }

/-- The declarations of the `aws` stack in Python module-execution order
(import order of `src/iac/stacks/aws/__init__.py`). -/
def awsDeclarations : List ResourceDeclaration :=
  [administrator_permission_set, sso_group_admins, sso_group_editors, v2kk,
   account_assignment, group_membership, managed_policy_attachment,
   hcloud_token, hcloud_token_alias]

/-- From `src/iac/stacks/vm-hcloud/__init__.py`: the private network. -/
def network : ResourceDeclaration :=
  { logical_name := "network"
    resource_kind := "hcloud.Network"
    properties :=
      [("name", PropValue.lit "network"),
       ("ip_range", PropValue.configKey "network_ip_range")] }

/-- From `src/iac/stacks/vm-hcloud/__init__.py`: the `network-subnet-dmz`
subnet inside the network. -/
def network_subnet : ResourceDeclaration :=
  { logical_name := "network-subnet-dmz"
    resource_kind := "hcloud.NetworkSubnet"
    properties :=
      [("type", PropValue.lit "cloud"),
       ("network_id", PropValue.ref "hcloud.Network" "network" "id"),
       ("network_zone", PropValue.lit "ap-southeast"),
       ("ip_range", PropValue.configKey "network_subnet_dmz_ip_range")] }

/-- From `src/iac/stacks/vm-hcloud/__init__.py`: the server attached to the
network, with an explicit `depends_on` hint on the subnet. -/
def server : ResourceDeclaration :=
  { logical_name := "server"
    resource_kind := "hcloud.Server"
    properties :=
      [("name", PropValue.lit "server"),
       ("server_type", PropValue.lit "cpx11"),
       ("image", PropValue.lit "ubuntu-24.04"),
       ("location", PropValue.lit "sin"),
       ("networks.0.network_id", PropValue.ref "hcloud.Network" "network" "id"),
       ("networks.0.ip", PropValue.lit "10.0.1.5"),
       ("networks.0.alias_ips.0", PropValue.lit "10.0.1.6"),
       ("networks.0.alias_ips.1", PropValue.lit "10.0.1.7")]
    explicit_dependencies := [("hcloud.NetworkSubnet", "network-subnet-dmz")] }

/-- The declarations of the `vm-hcloud` stack in module-execution order. -/
def vmHcloudDeclarations : List ResourceDeclaration :=
  [network, network_subnet, server]

/-- Modelled from the spec: graph-construction errors of the external engine
(`DanglingReference`, `CyclicDependency`), which the repository delegates to
the infrastructure-as-code runtime. -/
inductive GraphError where
  | danglingReference (target : RId)
  | cyclicDependency (members : List RId)
deriving DecidableEq, Repr

/-- A declaration is ready once every one of its dependencies has already
been emitted. -/
def ready (emitted : List RId) (d : ResourceDeclaration) : Bool :=
  (depsOf d).all fun i => emitted.contains i

/-- Modelled from the spec: the topological-sort loop of the external
engine dependency-graph resolution (spec section 4.2), with ties broken by
declaration order. `emitted` holds the identifiers already placed; each step
emits the first pending declaration whose dependencies are all emitted, and a
nonempty pending set with no ready declaration signals a cycle (`none`). -/
def topoGo : Nat → List RId → List ResourceDeclaration →
    Option (List ResourceDeclaration)
  | 0, _, pending => if pending = [] then some [] else none
  | fuel + 1, emitted, pending =>
    match pending.find? (ready emitted) with
    | some d =>
      (topoGo fuel (emitted ++ [declId d]) (pending.erase d)).map (d :: ·)
    | none => if pending = [] then some [] else none

/-- All dependency identifiers mentioned by a declaration set. -/
def allDeps (ds : List ResourceDeclaration) : List RId :=
  ds.foldr (fun d acc => depsOf d ++ acc) []

/-- The identifiers declared by a declaration set. -/
def declaredIds (ds : List ResourceDeclaration) : List RId := ds.map declId

/-- Modelled from the spec: the apply-order computation of the external engine
(spec section 4.2). It first rejects dangling references, then topologically
sorts the declarations, reporting a `CyclicDependency` when no order
exists. -/
def applyOrder (ds : List ResourceDeclaration) :
    Except GraphError (List ResourceDeclaration) :=
  match (allDeps ds).find? (fun i => !(declaredIds ds).contains i) with
  | some i => Except.error (GraphError.danglingReference i)
  | none =>
    match topoGo ds.length [] ds with
    | some order => Except.ok order
    | none => Except.error (GraphError.cyclicDependency (declaredIds ds))

/-- An order resolves all dependencies when the dependencies of each declaration
are identifiers of declarations placed strictly earlier (or in the initial
`emitted` set). -/
def DependenciesFirst (emitted : List RId) : List ResourceDeclaration → Prop
  | [] => True
  | d :: rest =>
    (∀ i ∈ depsOf d, i ∈ emitted) ∧
      DependenciesFirst (emitted ++ [declId d]) rest

instance instDecDependenciesFirst :
    (emitted : List RId) → (order : List ResourceDeclaration) →
    Decidable (DependenciesFirst emitted order)
  | _, [] => Decidable.isTrue trivial
  | e, d :: rest =>
    @instDecidableAnd _ _ _ (instDecDependenciesFirst (e ++ [declId d]) rest)

theorem ready_iff (emitted : List RId) (d : ResourceDeclaration) :
    ready emitted d = true ↔ ∀ i ∈ depsOf d, i ∈ emitted := by
  simp [ready]

/-- Soundness of the topological-sort loop: any order it emits resolves every
dependency before its dependent. -/
theorem topoGo_sound (fuel : Nat) :
    ∀ emitted pending order, topoGo fuel emitted pending = some order →
      DependenciesFirst emitted order := by
  induction fuel with
  | zero =>
    intro emitted pending order h
    simp only [topoGo] at h
    split at h
    · cases h; exact trivial
    · exact Option.noConfusion h
  | succ fuel ih =>
    intro emitted pending order h
    simp only [topoGo] at h
    split at h
    · rename_i d hf
      cases hr : topoGo fuel (emitted ++ [declId d]) (pending.erase d) with
      | none => rw [hr] at h; simp at h
      | some r =>
        rw [hr] at h
        simp only [Option.map] at h
        cases h
        refine ⟨?_, ih _ _ _ hr⟩
        have hready : ready emitted d = true := List.find?_some hf
        exact (ready_iff emitted d).mp hready
    · split at h
      · cases h; exact trivial
      · exact Option.noConfusion h

/-- Soundness of the apply-order computation. -/
theorem applyOrder_sound (ds order : List ResourceDeclaration)
    (h : applyOrder ds = Except.ok order) : DependenciesFirst [] order := by
  unfold applyOrder at h
  split at h
  · exact Except.noConfusion h
  · split at h
    · rename_i o ht
      cases h
      exact topoGo_sound ds.length [] ds _ ht
    · exact Except.noConfusion h

/-- Errors that can abort stack loading. `missingConfiguration` and
`unknownStack` are modelled from the error taxonomy of the spec (sections 4.1,
4.4, 7); `indexOutOfRange` is the failure of evaluating `arns[0]` on an
empty data-source result (`src/iac/stacks/aws/iam/sso.py` together with its
users). -/
inductive LoadError where
  | missingConfiguration (stackName : String) (key : String)
  | unknownStack (moduleName : String)
  | indexOutOfRange (expr : String)
deriving DecidableEq, Repr

/-- Modelled from the spec: `require(key)` of the configuration accessor
(spec section 4.1), embedding `pulumi.Config().require`: it returns the
configured value or fails with `MissingConfiguration` naming the key and the
stack. -/
def requireConfig (stackName : String) (cfg : List (String × String))
    (key : String) : Except LoadError String :=
  match cfg.lookup key with
  | some v => Except.ok v
  | none => Except.error (LoadError.missingConfiguration stackName key)

/-- The value of `sso_instance.arns[0]` given the list of SSO-instance ARNs
reported by the provider (`aws.ssoadmin.get_instances()` in
`src/iac/stacks/aws/iam/sso.py`): defined only when the list is nonempty. -/
def ssoInstanceArnValue (arns : List String) : Option String := arns.get? 0

/-- Loading the `aws` stack, following Python module-execution order: first
`iam/sso.py` requires `sso_identity_store_id`, then `iam/permission_sets.py`
evaluates `sso_instance.arns[0]`, then `iam/assignments.py` requires
`account_id`; only then are the declarations available. -/
def loadAws (cfg : List (String × String)) (ssoInstanceArns : List String) :
    Except LoadError (List ResourceDeclaration) :=
  match requireConfig "aws" cfg "sso_identity_store_id" with
  | Except.error e => Except.error e
  | Except.ok _ =>
    match ssoInstanceArnValue ssoInstanceArns with
    | none => Except.error (LoadError.indexOutOfRange "sso_instance.arns")
    | some _ =>
      match requireConfig "aws" cfg "account_id" with
      | Except.error e => Except.error e
      | Except.ok _ => Except.ok awsDeclarations

/-- Loading the `vm-hcloud` stack: `__init__.py` requires `network_ip_range`
and then `network_subnet_dmz_ip_range` before declaring any resource. -/
def loadVmHcloud (cfg : List (String × String)) :
    Except LoadError (List ResourceDeclaration) :=
  match requireConfig "vm-hcloud" cfg "network_ip_range" with
  | Except.error e => Except.error e
  | Except.ok _ =>
    match requireConfig "vm-hcloud" cfg "network_subnet_dmz_ip_range" with
    | Except.error e => Except.error e
    | Except.ok _ => Except.ok vmHcloudDeclarations

/-- From `src/iac/__main__.py`: the module name derived from the selected
stack name. -/
def moduleName (stackName : String) : String := "stacks." ++ stackName

/-- The stack names registered in this repository: the packages under
`src/iac/stacks/`. -/
def registeredStackNames : List String := ["aws", "vm-hcloud"]

/-- The module names importable below the `stacks` package in this
repository: the two stack packages plus every submodule of the `aws`
package. Python resolves dotted module names hierarchically, so each of
these imports successfully even though only the first two are registered
stacks. -/
def importableStackModules : List String :=
  ["stacks.aws", "stacks.vm-hcloud", "stacks.aws.kms", "stacks.aws.iam",
   "stacks.aws.iam.sso", "stacks.aws.iam.permission_sets",
   "stacks.aws.iam.groups", "stacks.aws.iam.users",
   "stacks.aws.iam.assignments", "stacks.aws.iam.group_memberships",
   "stacks.aws.iam.managed_policy_attachment"]

/-- Whether module name m lies strictly below the package whose dotted name
(including the trailing dot) is pkg. -/
def isSubmoduleOf (pkg m : String) : Bool := pkg.data.isPrefixOf m.data

/-- From `src/iac/__main__.py`: the entry dispatcher loads the Python module
named `stacks.` followed by the stack name. The module tree is fixed at
build time, and names are resolved hierarchically: importing any submodule
of a stack package first imports (and thereby fully executes) that package,
so a dotted name below `stacks.aws` runs the whole aws stack; a name whose
module is absent from the tree fails with `UnknownStack` (how the spec
renders the module-not-found failure), but only after any existing parent
package has been executed. -/
def load (stackName : String) (cfg : List (String × String))
    (ssoInstanceArns : List String) :
    Except LoadError (List ResourceDeclaration) :=
  if moduleName stackName = "stacks.vm-hcloud" then loadVmHcloud cfg
  else if moduleName stackName = "stacks.aws" then loadAws cfg ssoInstanceArns
  else if moduleName stackName ∈ importableStackModules then
    loadAws cfg ssoInstanceArns
  else if isSubmoduleOf "stacks.aws." (moduleName stackName) then
    match loadAws cfg ssoInstanceArns with
    | Except.error e => Except.error e
    | Except.ok _ =>
      Except.error (LoadError.unknownStack (moduleName stackName))
  else if isSubmoduleOf "stacks.vm-hcloud." (moduleName stackName) then
    match loadVmHcloud cfg with
    | Except.error e => Except.error e
    | Except.ok _ =>
      Except.error (LoadError.unknownStack (moduleName stackName))
  else Except.error (LoadError.unknownStack (moduleName stackName))

/-- The keys the `aws` stack requires, in module-execution order. -/
def awsRequiredKeys : List String := ["sso_identity_store_id", "account_id"]

/-- The keys the `vm-hcloud` stack requires, in module-execution order. -/
def vmHcloudRequiredKeys : List String :=
  ["network_ip_range", "network_subnet_dmz_ip_range"]

/-- Whether a load result is a success. -/
def loadedOk (r : Except LoadError (List ResourceDeclaration)) : Bool :=
  match r with
  | Except.ok _ => true
  | Except.error _ => false

theorem loadAws_ok (cfg : List (String × String)) (arns : List String)
    (harns : arns ≠ []) (hs : cfg.lookup "sso_identity_store_id" ≠ none)
    (ha : cfg.lookup "account_id" ≠ none) :
    loadAws cfg arns = Except.ok awsDeclarations := by
  cases hs2 : cfg.lookup "sso_identity_store_id" with
  | none => exact absurd hs2 hs
  | some v =>
    cases ha2 : cfg.lookup "account_id" with
    | none => exact absurd ha2 ha
    | some w =>
      rcases arns with _ | ⟨a, t⟩
      · exact absurd rfl harns
      unfold loadAws requireConfig ssoInstanceArnValue
      rw [hs2, ha2]
      rfl

theorem loadVmHcloud_ok (cfg : List (String × String))
    (hn : cfg.lookup "network_ip_range" ≠ none)
    (hd : cfg.lookup "network_subnet_dmz_ip_range" ≠ none) :
    loadVmHcloud cfg = Except.ok vmHcloudDeclarations := by
  cases hn2 : cfg.lookup "network_ip_range" with
  | none => exact absurd hn2 hn
  | some v =>
    cases hd2 : cfg.lookup "network_subnet_dmz_ip_range" with
    | none => exact absurd hd2 hd
    | some w =>
      unfold loadVmHcloud requireConfig
      rw [hn2, hd2]

/-- A dependency edge of the reference graph of a stack: `a` depends on `b`, both
declared in the stack. -/
def EdgeTo (ds : List ResourceDeclaration) (a b : ResourceDeclaration) : Prop :=
  a ∈ ds ∧ b ∈ ds ∧ declId b ∈ depsOf a

/-- The reference graph of a stack has a cycle when some declaration reaches
itself along a nonempty chain of dependency edges. -/
def HasCycle (ds : List ResourceDeclaration) : Prop :=
  ∃ a p, List.Chain (EdgeTo ds) a (p ++ [a])

/-- Acyclicity of the reference graph of a stack. -/
def Acyclic (ds : List ResourceDeclaration) : Prop := ¬ HasCycle ds

theorem chain_rank_lt {ds : List ResourceDeclaration}
    (rank : ResourceDeclaration → Nat)
    (hrank : ∀ a ∈ ds, ∀ b ∈ ds, declId b ∈ depsOf a → rank b < rank a) :
    ∀ (l : List ResourceDeclaration) (a : ResourceDeclaration),
      List.Chain (EdgeTo ds) a l → ∀ b ∈ l, rank b < rank a := by
  intro l
  induction l with
  | nil => intro a _ b hb; cases hb
  | cons c t ih =>
    intro a hchain b hb
    rw [List.chain_cons] at hchain
    obtain ⟨hac, hct⟩ := hchain
    have hca : rank c < rank a := hrank a hac.1 c hac.2.1 hac.2.2
    rcases List.mem_cons.mp hb with hbc | hbt
    · rw [hbc]; exact hca
    · exact (ih c hct b hbt).trans hca

/-- A rank function that strictly decreases along every dependency edge
certifies acyclicity. -/
theorem ranked_acyclic (ds : List ResourceDeclaration)
    (rank : ResourceDeclaration → Nat)
    (hrank : ∀ a ∈ ds, ∀ b ∈ ds, declId b ∈ depsOf a → rank b < rank a) :
    Acyclic ds := by
  rintro ⟨a, p, hchain⟩
  have ha : a ∈ p ++ [a] := by simp
  exact lt_irrefl (rank a)
    (chain_rank_lt rank hrank (p ++ [a]) a hchain a ha)

theorem loadAws_not_unknown (cfg : List (String × String)) (arns : List String)
    (m : String) : loadAws cfg arns ≠ Except.error (LoadError.unknownStack m) := by
  unfold loadAws requireConfig ssoInstanceArnValue
  cases cfg.lookup "sso_identity_store_id" <;> cases arns.get? 0 <;>
    cases cfg.lookup "account_id" <;> simp

theorem loadVmHcloud_not_unknown (cfg : List (String × String)) (m : String) :
    loadVmHcloud cfg ≠ Except.error (LoadError.unknownStack m) := by
  unfold loadVmHcloud requireConfig
  cases cfg.lookup "network_ip_range" <;>
    cases cfg.lookup "network_subnet_dmz_ip_range" <;> simp

/-- C1: for every declaration set accepted by the apply-order computation,
the computed order places every dependency before its dependents; in
particular, in the aws stack the Group "admins" and the User "v2kk" are both
placed before the GroupMembership "administrator" that references their
output attributes. -/
theorem c1_dependencies_before_dependents :
    (∀ ds order, applyOrder ds = Except.ok order → DependenciesFirst [] order) ∧
    (∀ order, applyOrder awsDeclarations = Except.ok order →
      order.indexOf sso_group_admins < order.indexOf group_membership ∧
      order.indexOf v2kk < order.indexOf group_membership) := by
  constructor
  · exact fun ds order h => applyOrder_sound ds order h
  · intro order h
    rw [show applyOrder awsDeclarations = Except.ok awsDeclarations from rfl] at h
    cases h
    exact ⟨by decide, by decide⟩

theorem c1_dependencies_before_dependents_witness :
    DependenciesFirst [] awsDeclarations ∧
    (awsDeclarations.indexOf sso_group_admins <
        awsDeclarations.indexOf group_membership ∧
      awsDeclarations.indexOf v2kk < awsDeclarations.indexOf group_membership) :=
  ⟨c1_dependencies_before_dependents.1 awsDeclarations awsDeclarations rfl,
   c1_dependencies_before_dependents.2 awsDeclarations rfl⟩

/-- C2: a required configuration key absent from the active configuration
makes loading fail with MissingConfiguration naming a missing required key
and the stack, before any declaration is produced; in particular, loading
the aws stack with account_id absent (and the identity-store id present)
fails with MissingConfiguration naming account_id. -/
theorem c2_missing_configuration :
    (∀ cfg arns key, arns ≠ [] → key ∈ awsRequiredKeys →
      cfg.lookup key = none →
      ∃ k, k ∈ awsRequiredKeys ∧ cfg.lookup k = none ∧
        load "aws" cfg arns =
          Except.error (LoadError.missingConfiguration "aws" k)) ∧
    (∀ cfg arns key, key ∈ vmHcloudRequiredKeys → cfg.lookup key = none →
      ∃ k, k ∈ vmHcloudRequiredKeys ∧ cfg.lookup k = none ∧
        load "vm-hcloud" cfg arns =
          Except.error (LoadError.missingConfiguration "vm-hcloud" k)) ∧
    (∀ cfg arns, arns ≠ [] → cfg.lookup "sso_identity_store_id" ≠ none →
      cfg.lookup "account_id" = none →
      load "aws" cfg arns =
        Except.error (LoadError.missingConfiguration "aws" "account_id")) := by
  refine ⟨?_, ?_, ?_⟩
  · intro cfg arns key harns hkey hnone
    cases hs : cfg.lookup "sso_identity_store_id" with
    | none =>
      refine ⟨"sso_identity_store_id", by decide, hs, ?_⟩
      show loadAws cfg arns = _
      unfold loadAws requireConfig
      rw [hs]
    | some v =>
      have hkacc : key = "account_id" := by
        have hmem := hkey
        simp [awsRequiredKeys] at hmem
        rcases hmem with h | h
        · rw [h] at hnone; rw [hnone] at hs; exact Option.noConfusion hs
        · exact h
      rw [hkacc] at hnone
      rcases arns with _ | ⟨a, t⟩
      · exact absurd rfl harns
      refine ⟨"account_id", by decide, hnone, ?_⟩
      show loadAws cfg (a :: t) = _
      unfold loadAws requireConfig ssoInstanceArnValue
      rw [hs, hnone]
      rfl
  · intro cfg arns key hkey hnone
    cases hn : cfg.lookup "network_ip_range" with
    | none =>
      refine ⟨"network_ip_range", by decide, hn, ?_⟩
      show loadVmHcloud cfg = _
      unfold loadVmHcloud requireConfig
      rw [hn]
    | some v =>
      have hksub : key = "network_subnet_dmz_ip_range" := by
        have hmem := hkey
        simp [vmHcloudRequiredKeys] at hmem
        rcases hmem with h | h
        · rw [h] at hnone; rw [hnone] at hn; exact Option.noConfusion hn
        · exact h
      rw [hksub] at hnone
      refine ⟨"network_subnet_dmz_ip_range", by decide, hnone, ?_⟩
      show loadVmHcloud cfg = _
      unfold loadVmHcloud requireConfig
      rw [hn, hnone]
  · intro cfg arns harns hsome hnone
    cases hs : cfg.lookup "sso_identity_store_id" with
    | none => exact absurd hs hsome
    | some v =>
      rcases arns with _ | ⟨a, t⟩
      · exact absurd rfl harns
      show loadAws cfg (a :: t) = _
      unfold loadAws requireConfig ssoInstanceArnValue
      rw [hs, hnone]
      rfl

theorem c2_missing_configuration_witness :
    load "aws" [("sso_identity_store_id", "d-1234567890")] ["arn-0"] =
      Except.error (LoadError.missingConfiguration "aws" "account_id") :=
  c2_missing_configuration.2.2 [("sso_identity_store_id", "d-1234567890")]
    ["arn-0"] (by decide) (by decide) (by decide)

/-- C3 counterexample: the stack name aws.kms is not a registered stack, yet
loading it succeeds without any UnknownStack error, because Python resolves
the dotted module name stacks.aws.kms hierarchically. This refutes the claim
that loading fails with UnknownStack whenever the name is unregistered. -/
theorem c3_unknown_stack_counterexample :
    "aws.kms" ∉ registeredStackNames ∧
    loadedOk (load "aws.kms"
      [("sso_identity_store_id", "d-1234567890"), ("account_id", "111111111111")]
      ["arn-0"]) = true ∧
    ¬∃ m, load "aws.kms"
      [("sso_identity_store_id", "d-1234567890"), ("account_id", "111111111111")]
      ["arn-0"] = Except.error (LoadError.unknownStack m) := by
  refine ⟨by decide, by decide, ?_⟩
  rintro ⟨m, hm⟩
  rw [show load "aws.kms"
      [("sso_identity_store_id", "d-1234567890"), ("account_id", "111111111111")]
      ["arn-0"] = Except.ok awsDeclarations from rfl] at hm
  exact Except.noConfusion hm

/-- C3 amended: loading resolves the runtime-provided stack name through the
build-time module tree below the stacks package. An UnknownStack failure
implies the derived module name is not importable, and conversely, when the
configuration supplies every required key and the provider reports an SSO
instance, loading fails with UnknownStack exactly when the derived module
name names no module of the tree; dotted names denoting submodules of a
registered stack import successfully (executing the parent stack) even
though they are not registered stacks. -/
theorem c3_unknown_stack_iff_unimportable :
    (∀ stackName cfg arns,
      (∃ m, load stackName cfg arns =
          Except.error (LoadError.unknownStack m)) →
        moduleName stackName ∉ importableStackModules) ∧
    (∀ stackName cfg arns, arns ≠ [] →
      cfg.lookup "sso_identity_store_id" ≠ none →
      cfg.lookup "account_id" ≠ none →
      cfg.lookup "network_ip_range" ≠ none →
      cfg.lookup "network_subnet_dmz_ip_range" ≠ none →
      ((∃ m, load stackName cfg arns =
          Except.error (LoadError.unknownStack m)) ↔
        moduleName stackName ∉ importableStackModules)) := by
  have hdir : ∀ stackName cfg arns,
      (∃ m, load stackName cfg arns =
          Except.error (LoadError.unknownStack m)) →
        moduleName stackName ∉ importableStackModules := by
    rintro s cfg arns ⟨m, hm⟩ hmem
    unfold load at hm
    by_cases h1 : moduleName s = "stacks.vm-hcloud"
    · rw [if_pos h1] at hm
      exact loadVmHcloud_not_unknown cfg m hm
    by_cases h2 : moduleName s = "stacks.aws"
    · rw [if_neg h1, if_pos h2] at hm
      exact loadAws_not_unknown cfg arns m hm
    rw [if_neg h1, if_neg h2, if_pos hmem] at hm
    exact loadAws_not_unknown cfg arns m hm
  refine ⟨hdir, ?_⟩
  intro s cfg arns harns hs ha hn hd
  constructor
  · exact hdir s cfg arns
  · intro hmem
    unfold load
    have h1 : ¬ moduleName s = "stacks.vm-hcloud" := by
      intro hc
      exact hmem (by rw [hc]; decide)
    have h2 : ¬ moduleName s = "stacks.aws" := by
      intro hc
      exact hmem (by rw [hc]; decide)
    rw [if_neg h1, if_neg h2, if_neg hmem]
    by_cases h3 : isSubmoduleOf "stacks.aws." (moduleName s) = true
    · rw [if_pos h3, loadAws_ok cfg arns harns hs ha]
      exact ⟨moduleName s, rfl⟩
    · rw [if_neg h3]
      by_cases h4 : isSubmoduleOf "stacks.vm-hcloud." (moduleName s) = true
      · rw [if_pos h4, loadVmHcloud_ok cfg hn hd]
        exact ⟨moduleName s, rfl⟩
      · rw [if_neg h4]
        exact ⟨moduleName s, rfl⟩

theorem c3_unknown_stack_iff_unimportable_witness :
    ∃ m, load "gcp"
      [("sso_identity_store_id", "d-1234567890"), ("account_id", "111111111111"),
       ("network_ip_range", "10.0.0.0/16"),
       ("network_subnet_dmz_ip_range", "10.0.1.0/24")]
      ["arn-0"] = Except.error (LoadError.unknownStack m) :=
  (c3_unknown_stack_iff_unimportable.2 "gcp"
    [("sso_identity_store_id", "d-1234567890"), ("account_id", "111111111111"),
     ("network_ip_range", "10.0.0.0/16"),
     ("network_subnet_dmz_ip_range", "10.0.1.0/24")]
    ["arn-0"] (by decide) (by decide) (by decide) (by decide) (by decide)).mpr
    (by decide)

/-- C4: in the vm-hcloud stack, the computed apply order always places the
subnet network-subnet-dmz before the server. -/
theorem c4_subnet_before_server :
    ∀ order, applyOrder vmHcloudDeclarations = Except.ok order →
      order.indexOf network_subnet < order.indexOf server := by
  intro order h
  rw [show applyOrder vmHcloudDeclarations = Except.ok vmHcloudDeclarations
      from rfl] at h
  cases h
  decide

theorem c4_subnet_before_server_witness :
    vmHcloudDeclarations.indexOf network_subnet <
      vmHcloudDeclarations.indexOf server :=
  c4_subnet_before_server vmHcloudDeclarations rfl

/-- C5: the reference graphs of the aws and vm-hcloud stacks, formed by
attribute references and explicit dependency hints, are acyclic. -/
theorem c5_reference_graphs_acyclic :
    Acyclic awsDeclarations ∧ Acyclic vmHcloudDeclarations :=
  ⟨ranked_acyclic awsDeclarations (fun d => awsDeclarations.indexOf d)
      (by decide),
   ranked_acyclic vmHcloudDeclarations
      (fun d => vmHcloudDeclarations.indexOf d) (by decide)⟩

/-- C6: within each stack, distinct declarations of the same resource kind
have distinct logical names, and the three aws declarations that share the
logical name administrator have three distinct resource kinds. -/
theorem c6_logical_names_unique_per_kind :
    ((awsDeclarations.map declId).Nodup ∧
      (vmHcloudDeclarations.map declId).Nodup) ∧
    (awsDeclarations.filter (fun d => d.logical_name == "administrator")).map
        (fun d => d.resource_kind) =
      ["aws.ssoadmin.PermissionSet", "aws.identitystore.GroupMembership",
       "aws.ssoadmin.ManagedPolicyAttachment"] :=
  ⟨by decide, by decide⟩

/-- C7: the aws stack declares exactly one KMS key (described as symmetric)
and exactly one alias, and the alias targets exactly the key_id output of
that key. -/
theorem c7_kms_alias_targets_declared_key :
    awsDeclarations.filter (fun d => d.resource_kind == "aws.kms.Key") =
        [hcloud_token] ∧
    awsDeclarations.filter (fun d => d.resource_kind == "aws.kms.Alias") =
        [hcloud_token_alias] ∧
    hcloud_token_alias.properties.lookup "target_key_id" =
        some (PropValue.ref "aws.kms.Key" "hcloud_token" "key_id") ∧
    declId hcloud_token = ("aws.kms.Key", "hcloud_token") ∧
    hcloud_token.properties.lookup "description" =
        some (PropValue.lit "Symmetric encryption KMS key for hcloud_token") :=
  ⟨by decide, by decide, rfl, rfl, rfl⟩

/-- C8: the aws stack requires exactly sso_identity_store_id and account_id
and the vm-hcloud stack exactly network_ip_range and
network_subnet_dmz_ip_range: their presence is necessary for a successful
load, and their presence alone (with a provider-reported SSO instance for
aws) is sufficient, so the absence of no other key prevents loading. -/
theorem c8_required_keys_exactly :
    (∀ cfg arns ds, load "aws" cfg arns = Except.ok ds →
      cfg.lookup "sso_identity_store_id" ≠ none ∧
        cfg.lookup "account_id" ≠ none) ∧
    (∀ cfg arns, arns ≠ [] → cfg.lookup "sso_identity_store_id" ≠ none →
      cfg.lookup "account_id" ≠ none → loadedOk (load "aws" cfg arns) = true) ∧
    (∀ cfg arns ds, load "vm-hcloud" cfg arns = Except.ok ds →
      cfg.lookup "network_ip_range" ≠ none ∧
        cfg.lookup "network_subnet_dmz_ip_range" ≠ none) ∧
    (∀ cfg arns, cfg.lookup "network_ip_range" ≠ none →
      cfg.lookup "network_subnet_dmz_ip_range" ≠ none →
      loadedOk (load "vm-hcloud" cfg arns) = true) := by
  refine ⟨?_, ?_, ?_, ?_⟩
  · intro cfg arns ds h
    have h2 : loadAws cfg arns = Except.ok ds := h
    unfold loadAws requireConfig at h2
    cases hs : cfg.lookup "sso_identity_store_id" with
    | none => rw [hs] at h2; exact absurd h2 (by simp)
    | some v =>
      rw [hs] at h2
      cases ha : cfg.lookup "account_id" with
      | none =>
        rw [ha] at h2
        cases hz : ssoInstanceArnValue arns with
        | none => rw [hz] at h2; exact absurd h2 (by simp)
        | some a => rw [hz] at h2; exact absurd h2 (by simp)
      | some w =>
        exact ⟨fun hc => Option.noConfusion hc, fun hc => Option.noConfusion hc⟩
  · intro cfg arns harns hsome hacc
    cases hs : cfg.lookup "sso_identity_store_id" with
    | none => exact absurd hs hsome
    | some v =>
      cases ha : cfg.lookup "account_id" with
      | none => exact absurd ha hacc
      | some w =>
        rcases arns with _ | ⟨a, t⟩
        · exact absurd rfl harns
        show loadedOk (loadAws cfg (a :: t)) = true
        unfold loadAws requireConfig ssoInstanceArnValue
        rw [hs, ha]
        rfl
  · intro cfg arns ds h
    have h2 : loadVmHcloud cfg = Except.ok ds := h
    unfold loadVmHcloud requireConfig at h2
    cases hn : cfg.lookup "network_ip_range" with
    | none => rw [hn] at h2; exact absurd h2 (by simp)
    | some v =>
      rw [hn] at h2
      cases hd : cfg.lookup "network_subnet_dmz_ip_range" with
      | none => rw [hd] at h2; exact absurd h2 (by simp)
      | some w =>
        exact ⟨fun hc => Option.noConfusion hc, fun hc => Option.noConfusion hc⟩
  · intro cfg arns hn hd
    cases hn2 : cfg.lookup "network_ip_range" with
    | none => exact absurd hn2 hn
    | some v =>
      cases hd2 : cfg.lookup "network_subnet_dmz_ip_range" with
      | none => exact absurd hd2 hd
      | some w =>
        show loadedOk (loadVmHcloud cfg) = true
        unfold loadVmHcloud requireConfig
        rw [hn2, hd2]
        rfl

theorem c8_required_keys_exactly_witness :
    loadedOk (load "vm-hcloud"
      [("network_ip_range", "10.0.0.0/16"),
       ("network_subnet_dmz_ip_range", "10.0.1.0/24")] []) = true :=
  c8_required_keys_exactly.2.2.2
    [("network_ip_range", "10.0.0.0/16"),
     ("network_subnet_dmz_ip_range", "10.0.1.0/24")] []
    (by decide) (by decide)

/-- C9: every ssoadmin declaration of the aws stack takes its instance ARN
from index 0 of the provider-reported SSO-instance list; that index is
defined exactly when the list is nonempty, and loading the aws stack with an
empty instance list never succeeds. -/
theorem c9_instance_arn_from_index_zero :
    (administrator_permission_set.properties.lookup "instance_arn" =
        some (PropValue.dataIdx "sso_instance" "arns" 0) ∧
      account_assignment.properties.lookup "instance_arn" =
        some (PropValue.dataIdx "sso_instance" "arns" 0) ∧
      managed_policy_attachment.properties.lookup "instance_arn" =
        some (PropValue.dataIdx "sso_instance" "arns" 0)) ∧
    (∀ arns : List String,
      (ssoInstanceArnValue arns).isSome = !arns.isEmpty) ∧
    (∀ cfg, loadedOk (load "aws" cfg []) = false) := by
  refine ⟨⟨rfl, rfl, rfl⟩, ?_, ?_⟩
  · intro arns
    rcases arns with _ | ⟨a, t⟩ <;> rfl
  · intro cfg
    show loadedOk (loadAws cfg []) = false
    unfold loadAws requireConfig
    cases cfg.lookup "sso_identity_store_id" <;>
      simp [loadedOk, ssoInstanceArnValue]

/-- C10: every identity-store declaration of the aws stack (the two groups,
the user and the group membership, and no other declaration) sets its
identity_store_id property to the configuration value sso_identity_store_id. -/
theorem c10_identity_store_id_uniform :
    (∀ d ∈ awsDeclarations,
      (d.resource_kind == "aws.identitystore.Group" ||
        d.resource_kind == "aws.identitystore.User" ||
        d.resource_kind == "aws.identitystore.GroupMembership") = true →
      d.properties.lookup "identity_store_id" =
        some (PropValue.configKey "sso_identity_store_id")) ∧
    awsDeclarations.filter
        (fun d => d.resource_kind == "aws.identitystore.Group" ||
          d.resource_kind == "aws.identitystore.User" ||
          d.resource_kind == "aws.identitystore.GroupMembership") =
      [sso_group_admins, sso_group_editors, v2kk, group_membership] :=
  ⟨by decide, by decide⟩

theorem c10_identity_store_id_uniform_witness :
    group_membership.properties.lookup "identity_store_id" =
      some (PropValue.configKey "sso_identity_store_id") :=
  c10_identity_store_id_uniform.1 group_membership (by decide) (by decide)

end Iac
